import Mathlib

/-!
Shallow embedding of the streaming-subscription core of the bison-markets
TypeScript SDK (src/client.ts), together with a model of the module-level
info cache. The embedding follows the source: the three listen methods of
BisonClient (listen, listenToKalshiEvent, listenToOrderbook) share one
design; the machine below embeds the account-event channel (listen,
client.ts lines 601-696) faithfully, including the fact that the WebSocket
handle, timers, reconnect flag and attempt counter are instance fields of
the client shared by every listen call of that channel. The per-channel
onmessage handler bodies of all three channels are embedded as pure
functions over the result of JSON.parse.
-/

namespace BisonSDK

/-- Structured values as produced by a successful JSON.parse of an inbound
frame. Objects are field lists; arrays are element lists. -/
inductive JValue where
  | jnull
  | jbool (b : Bool)
  | jnum (n : Int)
  | jstr (s : String)
  | jarr (elems : List JValue)
  | jobj (fields : List (String × JValue))

/-- Property access on a parsed value: for an object, look the key up in the
field list; anything else has no named properties relevant to the guards
(JSON arrays carry only index keys). -/
def JValue.lookupField : JValue → String → Option JValue
  | .jobj fs, k => fs.lookup k
  | _, _ => none

/-- Embeds the JavaScript test, used by the handlers, that a key is present
in the parsed value. -/
def JValue.hasProp (v : JValue) (k : String) : Bool :=
  (v.lookupField k).isSome

/-- Embeds the guard `data && typeof data === 'object'` applied to a value
returned by JSON.parse: null is falsy, objects and arrays have typeof
object, every other JSON value fails the typeof test. -/
def JValue.isTruthyObject : JValue → Bool
  | .jobj _ => true
  | .jarr _ => true
  | _ => false

/-- Strict equality of the property `k` of `v` with the string literal `s`,
embedding comparisons like `data.type === 'ping'`: true exactly when the
property exists, is a string, and equals `s`. -/
def JValue.fieldIsStr (v : JValue) (k s : String) : Bool :=
  match v.lookupField k with
  | some (.jstr t) => t == s
  | _ => false

/-- Error values that the streaming core can report through onError. -/
inductive WsError where
  | parseErr
  | transportErr
  | orderbookErr (msg : Option JValue)
  | thrownBy (tag : Nat)

/-- One invocation of a caller-supplied channel callback, as observed by the
caller: either the data callback or the error callback. -/
inductive ChanCall where
  | dataCb (v : JValue)
  | errCb (e : WsError)

/-- Observable outcome of running one onmessage handler body: the callback
invocations in order, whether the handler closed the connection, and an
exception escaping the handler (none: the whole body sits in a try/catch). -/
structure MsgOutcome where
  calls : List ChanCall
  closedConn : Bool
  escaped : Option Nat

/-- Dispatch guard of the account-event channel (client.ts lines 639-645):
`data && typeof data === 'object' && 'type' in data && data.type !== 'ping'
&& data.type !== 'pong'`. -/
def listenGuard (v : JValue) : Bool :=
  v.isTruthyObject && v.hasProp "type" &&
    !(v.fieldIsStr "type" "ping") && !(v.fieldIsStr "type" "pong")

/-- Body of the onmessage handler installed by BisonClient.listen (client.ts
lines 636-651). The payload is the result of JSON.parse: none means the
parse threw. The caller callback onEvent may itself throw (Except.error). -/
def listenOnMessage (onEvent : JValue → Except Nat Unit)
    (payload : Option JValue) : MsgOutcome :=
  match payload with
  | none => ⟨[.errCb .parseErr], false, none⟩
  | some v =>
    if listenGuard v then
      match onEvent v with
      | .ok _ => ⟨[.dataCb v], false, none⟩
      | .error t => ⟨[.dataCb v, .errCb (.thrownBy t)], false, none⟩
    else ⟨[], false, none⟩

/-- Dispatch guard of the ticker channel (client.ts line 739):
`data && typeof data === 'object' && 'market_ticker' in data`. -/
def kalshiEventGuard (v : JValue) : Bool :=
  v.isTruthyObject && v.hasProp "market_ticker"

/-- Body of the onmessage handler installed by
BisonClient.listenToKalshiEvent (client.ts lines 736-745). -/
def kalshiEventOnMessage (onTicker : JValue → Except Nat Unit)
    (payload : Option JValue) : MsgOutcome :=
  match payload with
  | none => ⟨[.errCb .parseErr], false, none⟩
  | some v =>
    if kalshiEventGuard v then
      match onTicker v with
      | .ok _ => ⟨[.dataCb v], false, none⟩
      | .error t => ⟨[.dataCb v, .errCb (.thrownBy t)], false, none⟩
    else ⟨[], false, none⟩

/-- Body of the onmessage handler installed by BisonClient.listenToOrderbook
(client.ts lines 830-844): snapshot and delta frames go to onUpdate, an
orderbook_error frame goes to onError with its message field, every other
typed object is dropped. -/
def orderbookOnMessage (onUpdate : JValue → Except Nat Unit)
    (payload : Option JValue) : MsgOutcome :=
  match payload with
  | none => ⟨[.errCb .parseErr], false, none⟩
  | some v =>
    if v.isTruthyObject && v.hasProp "type" then
      if v.fieldIsStr "type" "orderbook_snapshot" ||
          v.fieldIsStr "type" "orderbook_delta" then
        match onUpdate v with
        | .ok _ => ⟨[.dataCb v], false, none⟩
        | .error t => ⟨[.dataCb v, .errCb (.thrownBy t)], false, none⟩
      else if v.fieldIsStr "type" "orderbook_error" then
        ⟨[.errCb (.orderbookErr (v.lookupField "message"))], false, none⟩
      else ⟨[], false, none⟩
    else ⟨[], false, none⟩

/-- Maximum number of reconnect attempts (client.ts line 237). -/
def maxReconnectAttempts : Nat := 5

/-- Reconnect delay in milliseconds computed in the onclose handler
(client.ts line 667): `Math.min(1000 * Math.pow(2, attempts - 1), 30000)`
evaluated after the attempt counter has been incremented to `attempt`. -/
def reconnectDelay (attempt : Nat) : Nat :=
  min (1000 * 2 ^ (attempt - 1)) 30000

/-- WebSocket readyState values. -/
inductive ReadyState where
  | connecting
  | opened
  | closing
  | closed
deriving DecidableEq, Repr

/-- One WebSocket object created by a connect call of some listen
invocation; its handler closures capture the callbacks of the listen call
that created it, recorded here as the owner index. -/
structure Socket where
  owner : Nat
  ready : ReadyState
deriving DecidableEq, Repr

/-- Per listen-call configuration: the reconnect option as passed (none when
the caller supplied no options object) and the data callback, which may
throw. -/
structure SubConfig where
  reconnectOpt : Option Bool
  onEvent : JValue → Except Nat Unit

/-- State of one BisonClient restricted to the account-event channel fields
(client.ts lines 232-236): the shared socket reference, the shared reconnect
and heartbeat timers, the shared reconnect flag and attempt counter. The
sockets table records every WebSocket ever created (indexed by creation
order) because a socket object keeps its handlers callable even after
`this.ws` stops referencing it; subs records every listen call on the
client in order. -/
structure ClientListenState where
  sockets : List Socket
  ws : Option Nat
  reconnectTimer : Option (Nat × Nat)
  heartbeatTimer : Option Nat
  shouldReconnect : Bool
  reconnectAttempts : Nat
  subs : List SubConfig
  nextTimer : Nat
  firedTimers : List Nat

/-- A caller-visible callback invocation, tagged with the index of the
listen call whose options supplied the callback. -/
inductive Call where
  | onConnect (sub : Nat)
  | onDisconnect (sub : Nat)
  | onError (sub : Nat) (e : WsError)
  | onEvent (sub : Nat) (v : JValue)

/-- Externally observable effects of a step of the machine. -/
inductive Effect where
  | invoke (c : Call)
  | wsCreate (sid : Nat)
  | wsCloseCall (sid : Nat)
  | clearTimer (tid : Nat)
  | scheduleReconnect (tid : Nat) (delayMs : Nat)
  | startHeartbeat (tid : Nat)
  | sendPing (sid : Nat)

/-- Update the readyState of socket `sid` in the sockets table. -/
def setReady : List Socket → Nat → ReadyState → List Socket
  | [], _, _ => []
  | sock :: rest, 0, r => { sock with ready := r } :: rest
  | sock :: rest, n + 1, r => sock :: setReady rest n r

/-- ReadyState values under which the connect guard of client.ts line 617
returns early: OPEN or CONNECTING. -/
def readyBlocksConnect : ReadyState → Bool
  | .opened => true
  | .connecting => true
  | _ => false

/-- Embeds the connect closure of listen (client.ts lines 614-621 and
674): if the shared `this.ws` currently references a socket whose
readyState is OPEN or CONNECTING, return without doing anything; otherwise
create a new WebSocket owned by listen call `k` and store it in `this.ws`. -/
def connect (s : ClientListenState) (k : Nat) :
    ClientListenState × List Effect :=
  let blocked :=
    match s.ws with
    | some sid =>
      match s.sockets.get? sid with
      | some sock => readyBlocksConnect sock.ready
      | none => false
    | none => false
  if blocked then (s, [])
  else
    let sid := s.sockets.length
    ({ s with sockets := s.sockets ++ [⟨k, ReadyState.connecting⟩],
              ws := some sid },
      [Effect.wsCreate sid])

/-- The reconnect option of listen call `k`, as read by its closures. -/
def subReconnectOpt (s : ClientListenState) (k : Nat) : Option Bool :=
  match s.subs.get? k with
  | some cfg => cfg.reconnectOpt
  | none => none

/-- The data callback of listen call `k`. -/
def subOnEvent (s : ClientListenState) (k : Nat) : JValue → Except Nat Unit :=
  match s.subs.get? k with
  | some cfg => cfg.onEvent
  | none => fun _ => Except.ok ()

/-- Embeds the body of BisonClient.listen (client.ts lines 611-612 and the
final connect() call at 676): register the new subscription, set the shared
reconnect flag from `options?.reconnect ?? true`, reset the shared attempt
counter, then connect on behalf of the new call. -/
def listenStart (s : ClientListenState) (cfg : SubConfig) :
    ClientListenState × List Effect :=
  let k := s.subs.length
  let s1 := { s with subs := s.subs ++ [cfg],
                     shouldReconnect := cfg.reconnectOpt.getD true,
                     reconnectAttempts := 0 }
  connect s1 k

/-- Delivery of the transport open event on socket `sid`, running the onopen
closure of the owning listen call (client.ts lines 623-634): mark the socket
OPEN, reset the shared attempt counter to 0, invoke onConnect, and when
`options?.reconnect !== false` start the 30 s heartbeat interval. -/
def deliverOpen (s : ClientListenState) (sid : Nat) :
    ClientListenState × List Effect :=
  match s.sockets.get? sid with
  | none => (s, [])
  | some sock =>
    let k := sock.owner
    let s1 := { s with sockets := setReady s.sockets sid ReadyState.opened,
                       reconnectAttempts := 0 }
    if subReconnectOpt s k = some false then
      (s1, [Effect.invoke (Call.onConnect k)])
    else
      let t := s1.nextTimer
      ({ s1 with heartbeatTimer := some t, nextTimer := t + 1 },
        [Effect.invoke (Call.onConnect k), Effect.startHeartbeat t])

/-- Map a channel-callback invocation of listen call `k` to an effect. -/
def tagCall (k : Nat) : ChanCall → Effect
  | .dataCb v => Effect.invoke (Call.onEvent k v)
  | .errCb e => Effect.invoke (Call.onError k e)

/-- Delivery of a transport message event on socket `sid`, running the
onmessage closure of the owning listen call (client.ts lines 636-651); the
payload is the JSON.parse result of the frame text (none: parse threw). -/
def deliverMessage (s : ClientListenState) (sid : Nat)
    (payload : Option JValue) : ClientListenState × List Effect :=
  match s.sockets.get? sid with
  | none => (s, [])
  | some sock =>
    let k := sock.owner
    let out := listenOnMessage (subOnEvent s k) payload
    (s, out.calls.map (tagCall k))

/-- Delivery of a transport error event on socket `sid` (client.ts lines
653-655): report a generic transport error through onError. -/
def deliverError (s : ClientListenState) (sid : Nat) :
    ClientListenState × List Effect :=
  match s.sockets.get? sid with
  | none => (s, [])
  | some sock =>
    (s, [Effect.invoke (Call.onError sock.owner WsError.transportErr)])

/-- Delivery of the transport close event on socket `sid`, running the
onclose closure of the owning listen call (client.ts lines 657-673): clear
the shared heartbeat timer if set, invoke onDisconnect, and when the shared
reconnect flag is set and the shared attempt counter is below the maximum,
increment the counter and schedule a reconnect timer with the exponential
backoff delay. -/
def deliverClose (s : ClientListenState) (sid : Nat) :
    ClientListenState × List Effect :=
  match s.sockets.get? sid with
  | none => (s, [])
  | some sock =>
    let k := sock.owner
    let s0 := { s with sockets := setReady s.sockets sid ReadyState.closed }
    let ef1 := match s0.heartbeatTimer with
      | some t => [Effect.clearTimer t]
      | none => []
    let s1 := { s0 with heartbeatTimer := none }
    if s1.shouldReconnect ∧ s1.reconnectAttempts < maxReconnectAttempts then
      let n := s1.reconnectAttempts + 1
      let t := s1.nextTimer
      ({ s1 with reconnectAttempts := n,
                 reconnectTimer := some (t, k),
                 nextTimer := t + 1 },
        ef1 ++ [Effect.invoke (Call.onDisconnect k),
                Effect.scheduleReconnect t (reconnectDelay n)])
    else
      (s1, ef1 ++ [Effect.invoke (Call.onDisconnect k)])

/-- The pending reconnect timer `tid` fires (client.ts lines 669-671),
running the connect closure of the listen call that scheduled it. A timeout
fires at most once; the code leaves the spent id in `this.reconnectTimer`. -/
def fireReconnect (s : ClientListenState) (tid : Nat) :
    ClientListenState × List Effect :=
  match s.reconnectTimer with
  | some (t, k) =>
    if t = tid ∧ s.firedTimers.contains tid = false then
      connect { s with firedTimers := tid :: s.firedTimers } k
    else (s, [])
  | none => (s, [])

/-- One tick of the heartbeat interval `tid` (client.ts lines 628-632): if
the shared `this.ws` currently references an OPEN socket, send a ping frame
on it; otherwise do nothing. -/
def fireHeartbeat (s : ClientListenState) (tid : Nat) :
    ClientListenState × List Effect :=
  match s.heartbeatTimer with
  | some t =>
    if t = tid then
      match s.ws with
      | some sid =>
        match s.sockets.get? sid with
        | some sock =>
          if sock.ready = ReadyState.opened then (s, [Effect.sendPing sid])
          else (s, [])
        | none => (s, [])
      | none => (s, [])
    else (s, [])
  | none => (s, [])

/-- Embeds the disposer returned by listen (client.ts lines 678-695): clear
the shared reconnect flag, clear both shared timers if set, and if the
shared socket reference is set, call close() on it (readyState becomes
CLOSING) and null the reference. The body reads only the shared instance
fields, so it is the same whichever listen call returned the disposer. -/
def disposeListen (s : ClientListenState) : ClientListenState × List Effect :=
  let s0 := { s with shouldReconnect := false }
  let (s1, e1) :=
    match s0.reconnectTimer with
    | some (t, _) =>
      ({ s0 with reconnectTimer := none }, [Effect.clearTimer t])
    | none => (s0, [])
  let (s2, e2) :=
    match s1.heartbeatTimer with
    | some t => ({ s1 with heartbeatTimer := none }, [Effect.clearTimer t])
    | none => (s1, [])
  match s2.ws with
  | some sid =>
    ({ s2 with ws := none,
               sockets := setReady s2.sockets sid ReadyState.closing },
      e1 ++ e2 ++ [Effect.wsCloseCall sid])
  | none => (s2, e1 ++ e2)

/-- Events of the single-threaded event loop driving one client: listen
calls, transport event deliveries on a given socket, timer firings, and
disposer calls. -/
inductive Event where
  | listenCall (cfg : SubConfig)
  | openEvt (sid : Nat)
  | msgEvt (sid : Nat) (payload : Option JValue)
  | errEvt (sid : Nat)
  | closeEvt (sid : Nat)
  | reconnectFire (tid : Nat)
  | heartbeatFire (tid : Nat)
  | disposerCall

/-- One scheduled callback of the event loop. -/
def step (s : ClientListenState) : Event → ClientListenState × List Effect
  | .listenCall cfg => listenStart s cfg
  | .openEvt sid => deliverOpen s sid
  | .msgEvt sid payload => deliverMessage s sid payload
  | .errEvt sid => deliverError s sid
  | .closeEvt sid => deliverClose s sid
  | .reconnectFire tid => fireReconnect s tid
  | .heartbeatFire tid => fireHeartbeat s tid
  | .disposerCall => disposeListen s

/-- Run a sequence of event-loop callbacks, accumulating effects. -/
def run (s : ClientListenState) : List Event → ClientListenState × List Effect
  | [] => (s, [])
  | e :: es =>
    let r1 := step s e
    let r2 := run r1.1 es
    (r2.1, r1.2 ++ r2.2)

/-- State of a freshly constructed BisonClient: no socket, no timers, flag
clear, counter zero. -/
def initClient : ClientListenState :=
  ⟨[], none, none, none, false, 0, [], 0, []⟩

/-- Delays of the reconnect timers scheduled among a list of effects. -/
def scheduledDelays (efs : List Effect) : List Nat :=
  efs.filterMap fun e =>
    match e with
    | .scheduleReconnect _ d => some d
    | _ => none

/-- Callback invocations among a list of effects. -/
def invokedCalls (efs : List Effect) : List Call :=
  efs.filterMap fun e =>
    match e with
    | .invoke c => some c
    | _ => none

/-- The ping control frame, parsed. -/
def pingFrame : JValue := .jobj [("type", .jstr "ping")]

/-- The pong control frame, parsed. -/
def pongFrame : JValue := .jobj [("type", .jstr "pong")]

/-- A representative data frame of the account-event channel, parsed. -/
def orderFilledFrame : JValue :=
  .jobj [("type", .jstr "order_filled"), ("orderId", .jstr "x")]

/-- A representative data frame of the ticker channel, parsed. -/
def tickerFrame : JValue :=
  .jobj [("market_ticker", .jstr "KXBTC"), ("volume", .jnum 3)]

/-- A representative data frame of the order-book channel, parsed. -/
def snapshotFrame : JValue :=
  .jobj [("type", .jstr "orderbook_snapshot"), ("market_ticker", .jstr "KXBTC")]

/-- A data callback that returns normally. -/
def okCb : JValue → Except Nat Unit := fun _ => Except.ok ()

/-- A data callback that throws the value tagged 7. -/
def throwCb : JValue → Except Nat Unit := fun _ => Except.error 7

/-- A subscription with reconnect enabled and a non-throwing callback. -/
def defaultSub : SubConfig := ⟨some true, okCb⟩

/-- Trace for the post-dispose scenario: one listen call, the socket opens,
then the caller invokes the disposer. -/
def c1Trace : List Event :=
  [Event.listenCall defaultSub, Event.openEvt 0, Event.disposerCall]

/-- Client state immediately after the disposer of the c1 trace returned. -/
def c1State : ClientListenState := (run initClient c1Trace).1

/-- Trace for the two-subscription scenario: a first listen call, its socket
opens, then a second listen call on the same client and channel. -/
def c2Trace : List Event :=
  [Event.listenCall defaultSub, Event.openEvt 0, Event.listenCall defaultSub]

/-- Client state after the second listen call of the c2 trace. -/
def c2State : ClientListenState := (run initClient c2Trace).1

/-- Trace for the counter-reset scenario: listen, the first connection
attempt fails, the reconnect timer fires, the new socket opens, then fails
again. -/
def c4Trace : List Event :=
  [Event.listenCall defaultSub, Event.closeEvt 0, Event.reconnectFire 0,
   Event.openEvt 1]

/-- Client state after the successful reopen of the c4 trace. -/
def c4State : ClientListenState := (run initClient c4Trace).1

/-- A client state whose shared attempt counter has reached the maximum,
with one closed-side socket still able to deliver a close event. -/
def exhaustedState : ClientListenState :=
  ⟨[⟨0, ReadyState.connecting⟩], some 0, none, none, true, 5,
    [defaultSub], 5, [0, 1, 2, 3, 4]⟩

/-- A client state one failure away from the third retry, used to witness
the backoff law. -/
def midRetryState : ClientListenState :=
  ⟨[⟨0, ReadyState.connecting⟩], some 0, none, none, true, 2,
    [defaultSub], 2, [0, 1]⟩

/-- Client state right after a single listen call, its socket still
connecting. -/
def oneSubConnecting : ClientListenState :=
  (run initClient [Event.listenCall defaultSub]).1

/-- Chain deployment info returned for one chain by the /info endpoint
(client.ts lines 142-147). -/
structure ChainInfo where
  vaultAddress : String
  usdcAddress : String
  rpcUrl : String
  chainId : Nat

/-- Response of the /info endpoint, restricted to what getChainInfo reads:
the per-chain map. -/
structure GetInfoResponse where
  chains : String → ChainInfo

/-- The module-level /info cache keyed by baseUrl (client.ts line 183),
modelled as an association list threaded through the calls; it lives at
module scope, so it is one value per process shared by all clients. -/
abbrev InfoCache := List (String × GetInfoResponse)

/-- A BisonClient restricted to the field that getChainInfo reads. -/
structure BisonClientModel where
  baseUrl : String

/-- Embeds BisonClient.getChainInfo (client.ts lines 285-297): if the
module-level cache has no entry for this clients baseUrl, fetch /info
(`fetched` is the response the network would return) and store it; then
read the entry back and return its record for the requested chain. The
Bool result records whether a getInfo network request was issued. -/
def getChainInfo (c : BisonClientModel) (chain : String)
    (fetched : GetInfoResponse) (cache : InfoCache) :
    Except String ChainInfo × InfoCache × Bool :=
  let r :=
    if (cache.lookup c.baseUrl).isSome then (cache, false)
    else ((c.baseUrl, fetched) :: cache, true)
  match r.1.lookup c.baseUrl with
  | some info => (Except.ok (info.chains chain), r.1, r.2)
  | none =>
    (Except.error "Failed to retrieve chain info from cache", r.1, r.2)

/-- A concrete chain record for witnesses. -/
def chainA : ChainInfo := ⟨"0xvault", "0xusdc", "http rpc", 8453⟩

/-- A concrete /info response for witnesses. -/
def infoA : GetInfoResponse := ⟨fun _ => chainA⟩

/-- A second concrete /info response, distinguishable from infoA. -/
def infoB : GetInfoResponse := ⟨fun _ => ⟨"0xother", "0xother", "r", 1⟩⟩

/-- The connect closure never changes the attempt counter. -/
theorem connect_attempts (s : ClientListenState) (k : Nat) :
    ((connect s k).1).reconnectAttempts = s.reconnectAttempts := by
  unfold connect
  dsimp only
  split <;> rfl

/-- Every event-loop callback keeps the attempt counter at or below the
configured maximum. -/
theorem step_attempts_le (s : ClientListenState) (e : Event)
    (h : s.reconnectAttempts ≤ maxReconnectAttempts) :
    ((step s e).1).reconnectAttempts ≤ maxReconnectAttempts := by
  cases e with
  | listenCall cfg =>
    show ((listenStart s cfg).1).reconnectAttempts ≤ maxReconnectAttempts
    unfold listenStart
    dsimp only
    rw [connect_attempts]
    exact Nat.zero_le _
  | openEvt sid =>
    show ((deliverOpen s sid).1).reconnectAttempts ≤ maxReconnectAttempts
    unfold deliverOpen
    cases hg : s.sockets.get? sid with
    | none => exact h
    | some sock =>
      dsimp only
      split
      · exact Nat.zero_le _
      · exact Nat.zero_le _
  | msgEvt sid payload =>
    show ((deliverMessage s sid payload).1).reconnectAttempts ≤ maxReconnectAttempts
    unfold deliverMessage
    cases hg : s.sockets.get? sid with
    | none => exact h
    | some sock => exact h
  | errEvt sid =>
    show ((deliverError s sid).1).reconnectAttempts ≤ maxReconnectAttempts
    unfold deliverError
    cases hg : s.sockets.get? sid with
    | none => exact h
    | some sock => exact h
  | closeEvt sid =>
    show ((deliverClose s sid).1).reconnectAttempts ≤ maxReconnectAttempts
    unfold deliverClose
    cases hg : s.sockets.get? sid with
    | none => exact h
    | some sock =>
      dsimp only
      split
      · next hc => exact hc.2
      · exact h
  | reconnectFire tid =>
    show ((fireReconnect s tid).1).reconnectAttempts ≤ maxReconnectAttempts
    unfold fireReconnect
    cases hr : s.reconnectTimer with
    | none => exact h
    | some tk =>
      dsimp only
      split
      · rw [connect_attempts]; exact h
      · exact h
  | heartbeatFire tid =>
    show ((fireHeartbeat s tid).1).reconnectAttempts ≤ maxReconnectAttempts
    unfold fireHeartbeat
    cases hh : s.heartbeatTimer with
    | none => exact h
    | some t =>
      dsimp only
      split
      · cases hw : s.ws with
        | none => exact h
        | some sid =>
          dsimp only
          cases hg : s.sockets.get? sid with
          | none => exact h
          | some sock =>
            dsimp only
            split <;> exact h
      · exact h
  | disposerCall =>
    show ((disposeListen s).1).reconnectAttempts ≤ maxReconnectAttempts
    obtain ⟨so, ws, rt, hb, sr, ra, sb, nt, ft⟩ := s
    rcases rt with _ | ⟨t, k⟩ <;> rcases hb with _ | t2 <;>
      rcases ws with _ | sid <;> exact h

/-- Running any event sequence keeps the attempt counter at or below the
configured maximum. -/
theorem run_attempts_le (evs : List Event) (s : ClientListenState)
    (h : s.reconnectAttempts ≤ maxReconnectAttempts) :
    ((run s evs).1).reconnectAttempts ≤ maxReconnectAttempts := by
  induction evs generalizing s with
  | nil => exact h
  | cons e es ih => exact ih _ (step_attempts_le s e h)

/-- C1: the code does not satisfy post-dispose silence. In the concrete
trace listen, open, dispose, the close event that the call to close()
inside the disposer itself triggers still runs the onclose handler, which
invokes onDisconnect after the disposer has returned; likewise a message
event already scheduled at disposal time still invokes onEvent. The
disposer only clears references and the reconnect flag; no liveness flag
is checked at callback entry. -/
theorem c1_callbacks_fire_after_dispose :
    (step c1State (Event.closeEvt 0)).2 =
      [Effect.invoke (Call.onDisconnect 0)] ∧
    (step c1State (Event.msgEvt 0 (some orderFilledFrame))).2 =
      [Effect.invoke (Call.onEvent 0 orderFilledFrame)] :=
  ⟨rfl, rfl⟩

/-- C2 (counterexample): two listen calls on the same client are not
independent. After listen, open, listen, there is still exactly one socket
and it is owned by the first call (the second listen call created no
transport of its own because the shared `this.ws` was OPEN); the disposer
returned by the second call closes the socket owned by the first
subscription; and after that disposal the first subscription can never
reconnect (its close event yields only onDisconnect). -/
theorem c2_counterexample :
    c2State.subs.length = 2 ∧
    c2State.sockets = [⟨0, ReadyState.opened⟩] ∧
    c2State.ws = some 0 ∧
    (disposeListen c2State).2 =
      [Effect.clearTimer 0, Effect.wsCloseCall 0] ∧
    (step (disposeListen c2State).1 (Event.closeEvt 0)).2 =
      [Effect.invoke (Call.onDisconnect 0)] :=
  ⟨rfl, rfl, rfl, rfl, rfl⟩

/-- C2 (amended): within one client, the transport handle, attempt counter,
timers and reconnect flag of a channel are shared by all subscriptions of
that channel rather than owned per subscription. A listen call made while
the shared socket is OPEN or CONNECTING creates no transport and instead
re-initializes the shared flag and counter in place, and any disposer
clears the shared flag and handle for every subscription of the channel.
Independence holds only across distinct client instances or distinct
channels, whose field sets are disjoint. -/
theorem c2_channel_state_shared (s : ClientListenState) (cfg : SubConfig)
    (sid : Nat) (sock : Socket) (h1 : s.ws = some sid)
    (h2 : s.sockets.get? sid = some sock)
    (h3 : readyBlocksConnect sock.ready = true) :
    ((listenStart s cfg).1.sockets = s.sockets ∧
      (listenStart s cfg).1.ws = s.ws ∧
      (listenStart s cfg).2 = [] ∧
      (listenStart s cfg).1.reconnectAttempts = 0 ∧
      (listenStart s cfg).1.shouldReconnect = cfg.reconnectOpt.getD true) ∧
    (∀ s2 : ClientListenState,
      ((disposeListen s2).1).shouldReconnect = false ∧
      ((disposeListen s2).1).ws = none) := by
  constructor
  · unfold listenStart connect
    dsimp only
    rw [h1]
    dsimp only
    rw [h2]
    dsimp only
    rw [h3]
    exact ⟨rfl, rfl, rfl, rfl, rfl⟩
  · intro s2
    obtain ⟨so, ws, rt, hb, sr, ra, sb, nt, ft⟩ := s2
    rcases rt with _ | ⟨t, k⟩ <;> rcases hb with _ | t2 <;>
      rcases ws with _ | sid2 <;> exact ⟨rfl, rfl⟩

/-- Closed instance of the shared-state theorem at the concrete state in
which the first subscription has an OPEN socket. -/
theorem c2_channel_state_shared_witness :
    (listenStart (run initClient
        [Event.listenCall defaultSub, Event.openEvt 0]).1 defaultSub).2 = [] :=
  ((c2_channel_state_shared
    (run initClient [Event.listenCall defaultSub, Event.openEvt 0]).1
    defaultSub 0 ⟨0, ReadyState.opened⟩ rfl rfl rfl).1).2.2.1

/-- C3: the reconnect delay computed in the onclose handler before
scheduling the n-th retry equals min(1000 * 2^(n-1), 30000) milliseconds;
in particular delay(1) = 1000, delay(4) = 8000 and delay(6) is clamped to
30000. -/
theorem c3_backoff_delay_law :
    (∀ n : Nat, 1 ≤ n →
      reconnectDelay n = min (1000 * 2 ^ (n - 1)) 30000) ∧
    reconnectDelay 1 = 1000 ∧
    reconnectDelay 4 = 8000 ∧
    reconnectDelay 6 = 30000 ∧
    (∀ (s : ClientListenState) (sid : Nat) (sock : Socket) (n : Nat),
      s.sockets.get? sid = some sock →
      s.shouldReconnect = true →
      s.reconnectAttempts + 1 = n →
      n ≤ maxReconnectAttempts →
      scheduledDelays (step s (Event.closeEvt sid)).2 =
        [min (1000 * 2 ^ (n - 1)) 30000]) := by
  refine ⟨fun n _ => rfl, rfl, rfl, rfl, ?_⟩
  intro s sid sock n hg hsr hn hle
  have hlt : s.reconnectAttempts < maxReconnectAttempts := by omega
  show scheduledDelays (deliverClose s sid).2 = _
  unfold deliverClose
  rw [hg]
  dsimp only
  rw [if_pos ⟨hsr, hlt⟩]
  have hd : reconnectDelay (s.reconnectAttempts + 1) =
      min (1000 * 2 ^ (n - 1)) 30000 := by
    rw [hn]; rfl
  cases s.heartbeatTimer <;>
    simp [scheduledDelays, List.filterMap_append, hd]

/-- Closed instance of the backoff law: a third consecutive failure is
scheduled with delay 4000 ms. -/
theorem c3_backoff_delay_law_witness :
    scheduledDelays (step midRetryState (Event.closeEvt 0)).2 =
      [min (1000 * 2 ^ (3 - 1)) 30000] :=
  c3_backoff_delay_law.2.2.2.2 midRetryState 0 ⟨0, ReadyState.connecting⟩ 3
    rfl rfl rfl (by decide)

/-- C4: every transport open event resets the shared attempt counter to 0,
so in the trace fail, reconnect, open, fail again, the delay chosen after
the second failure is reconnectDelay 1 = 1000 ms. -/
theorem c4_attempts_reset_on_open :
    (∀ (s : ClientListenState) (sid : Nat) (sock : Socket),
      s.sockets.get? sid = some sock →
      ((step s (Event.openEvt sid)).1).reconnectAttempts = 0) ∧
    c4State.reconnectAttempts = 0 ∧
    (step c4State (Event.closeEvt 1)).2 =
      [Effect.clearTimer 1, Effect.invoke (Call.onDisconnect 0),
       Effect.scheduleReconnect 2 (reconnectDelay 1)] ∧
    reconnectDelay 1 = 1000 := by
  refine ⟨?_, rfl, rfl, rfl⟩
  intro s sid sock hg
  show ((deliverOpen s sid).1).reconnectAttempts = 0
  unfold deliverOpen
  rw [hg]
  dsimp only
  split <;> rfl

/-- Closed instance of the reset law at the reopened socket of the c4
trace. -/
theorem c4_attempts_reset_on_open_witness :
    ((step c4State (Event.openEvt 1)).1).reconnectAttempts = 0 :=
  c4_attempts_reset_on_open.1 c4State 1 ⟨0, ReadyState.opened⟩ rfl

/-- C5: the attempt counter never exceeds the maximum of 5 along any event
sequence (so no 6th attempt ever occurs), and once it has reached the
maximum a further close event schedules no reconnect timer, invokes no
error callback, and delivers exactly the onDisconnect for that close. -/
theorem c5_retry_cap_and_silence :
    (∀ evs : List Event,
      ((run initClient evs).1).reconnectAttempts ≤ maxReconnectAttempts) ∧
    (∀ (s : ClientListenState) (sid : Nat) (sock : Socket),
      s.sockets.get? sid = some sock →
      maxReconnectAttempts ≤ s.reconnectAttempts →
      scheduledDelays (step s (Event.closeEvt sid)).2 = [] ∧
      invokedCalls (step s (Event.closeEvt sid)).2 =
        [Call.onDisconnect sock.owner] ∧
      ((step s (Event.closeEvt sid)).1).reconnectTimer = s.reconnectTimer)
    := by
  constructor
  · intro evs
    exact run_attempts_le evs initClient (by decide)
  · intro s sid sock hg hmax
    have hcond : ¬(s.shouldReconnect = true ∧
        s.reconnectAttempts < maxReconnectAttempts) := by
      rintro ⟨-, hlt⟩; omega
    show scheduledDelays (deliverClose s sid).2 = [] ∧
      invokedCalls (deliverClose s sid).2 = [Call.onDisconnect sock.owner] ∧
      ((deliverClose s sid).1).reconnectTimer = s.reconnectTimer
    unfold deliverClose
    rw [hg]
    dsimp only
    rw [if_neg hcond]
    cases s.heartbeatTimer <;>
      simp [scheduledDelays, invokedCalls, List.filterMap_append]

/-- Closed instance of retry exhaustion: with the counter at 5, a close
schedules nothing. -/
theorem c5_retry_cap_and_silence_witness :
    scheduledDelays (step exhaustedState (Event.closeEvt 0)).2 = [] :=
  (c5_retry_cap_and_silence.2 exhaustedState 0 ⟨0, ReadyState.connecting⟩
    rfl (by decide)).1

/-- C6: a payload whose parse throws makes the handler invoke onError with
the parse error, drop the message without invoking the data callback, and
leave the client state untouched, so the connection stays open and no
onDisconnect results; the same parse-failure branch holds in the handlers
of all three channels. -/
theorem c6_parse_failure_reported_connection_kept :
    (∀ (s : ClientListenState) (sid : Nat) (sock : Socket),
      s.sockets.get? sid = some sock →
      step s (Event.msgEvt sid none) =
        (s, [Effect.invoke (Call.onError sock.owner WsError.parseErr)])) ∧
    (∀ cb, listenOnMessage cb none =
      ⟨[ChanCall.errCb WsError.parseErr], false, none⟩) ∧
    (∀ cb, kalshiEventOnMessage cb none =
      ⟨[ChanCall.errCb WsError.parseErr], false, none⟩) ∧
    (∀ cb, orderbookOnMessage cb none =
      ⟨[ChanCall.errCb WsError.parseErr], false, none⟩) := by
  refine ⟨?_, fun _ => rfl, fun _ => rfl, fun _ => rfl⟩
  intro s sid sock hg
  show deliverMessage s sid none = _
  unfold deliverMessage
  rw [hg]
  rfl

/-- Closed instance of parse-failure handling on a connecting socket. -/
theorem c6_parse_failure_witness :
    step oneSubConnecting (Event.msgEvt 0 none) =
      (oneSubConnecting,
       [Effect.invoke (Call.onError 0 WsError.parseErr)]) :=
  c6_parse_failure_reported_connection_kept.1 oneSubConnecting 0
    ⟨0, ReadyState.connecting⟩ rfl

/-- C7: the disposer is idempotent: applied to the state its first call
produced, a second call changes nothing and produces no further teardown
effect, in every starting state. -/
theorem c7_disposer_idempotent (s : ClientListenState) :
    disposeListen (disposeListen s).1 = ((disposeListen s).1, []) := by
  obtain ⟨so, ws, rt, hb, sr, ra, sb, nt, ft⟩ := s
  rcases rt with _ | ⟨t, k⟩ <;> rcases hb with _ | t2 <;>
    rcases ws with _ | sid <;> rfl

/-- C8: a ping or pong control frame is absorbed on every channel: the
data callback is not invoked and no error is reported for that frame. -/
theorem c8_control_frames_absorbed :
    (∀ cb, listenOnMessage cb (some pingFrame) = ⟨[], false, none⟩) ∧
    (∀ cb, listenOnMessage cb (some pongFrame) = ⟨[], false, none⟩) ∧
    (∀ cb, kalshiEventOnMessage cb (some pingFrame) = ⟨[], false, none⟩) ∧
    (∀ cb, kalshiEventOnMessage cb (some pongFrame) = ⟨[], false, none⟩) ∧
    (∀ cb, orderbookOnMessage cb (some pingFrame) = ⟨[], false, none⟩) ∧
    (∀ cb, orderbookOnMessage cb (some pongFrame) = ⟨[], false, none⟩) :=
  ⟨fun _ => rfl, fun _ => rfl, fun _ => rfl, fun _ => rfl,
   fun _ => rfl, fun _ => rfl⟩

/-- C9: an exception thrown by the caller-supplied data callback while
handling a dispatched message is caught inside the handler and reported to
onError with the thrown value; it does not escape the handler and the
handler does not close the connection, on each of the three channels. -/
theorem c9_callback_exception_reported :
    (∀ (cb : JValue → Except Nat Unit) (v : JValue) (t : Nat),
      listenGuard v = true → cb v = Except.error t →
      listenOnMessage cb (some v) =
        ⟨[ChanCall.dataCb v, ChanCall.errCb (WsError.thrownBy t)],
         false, none⟩) ∧
    (∀ (cb : JValue → Except Nat Unit) (v : JValue) (t : Nat),
      kalshiEventGuard v = true → cb v = Except.error t →
      kalshiEventOnMessage cb (some v) =
        ⟨[ChanCall.dataCb v, ChanCall.errCb (WsError.thrownBy t)],
         false, none⟩) ∧
    (∀ (cb : JValue → Except Nat Unit) (v : JValue) (t : Nat),
      (v.isTruthyObject && v.hasProp "type") = true →
      (v.fieldIsStr "type" "orderbook_snapshot" ||
        v.fieldIsStr "type" "orderbook_delta") = true →
      cb v = Except.error t →
      orderbookOnMessage cb (some v) =
        ⟨[ChanCall.dataCb v, ChanCall.errCb (WsError.thrownBy t)],
         false, none⟩) := by
  refine ⟨?_, ?_, ?_⟩
  · intro cb v t hguard hcb
    simp [listenOnMessage, hguard, hcb]
  · intro cb v t hguard hcb
    simp [kalshiEventOnMessage, hguard, hcb]
  · intro cb v t hobj hkind hcb
    simp [orderbookOnMessage, hobj, hkind, hcb]

/-- Closed instance of exception reporting: a throwing callback on an
order-filled frame yields the data call followed by onError with the
thrown value. -/
theorem c9_callback_exception_reported_witness :
    listenOnMessage throwCb (some orderFilledFrame) =
      ⟨[ChanCall.dataCb orderFilledFrame,
        ChanCall.errCb (WsError.thrownBy 7)], false, none⟩ :=
  c9_callback_exception_reported.1 throwCb orderFilledFrame 7 rfl rfl

/-- Small helper: looking up the key just inserted at the front of an
association list finds the inserted value. -/
theorem lookup_cons_self {β : Type} (k : String) (v : β)
    (l : List (String × β)) : ((k, v) :: l).lookup k = some v := by
  simp [List.lookup]

/-- C10: the /info cache is keyed by baseUrl and shared by all client
values: a call that finds the cache populated for its baseUrl returns
chain info from the cached response without issuing a getInfo request, and
once one client with a given baseUrl has populated the cache, a call on
any other client with the same baseUrl is served from the first response,
without a fetch and without changing the cache. -/
theorem c10_info_cache_shared_by_baseUrl :
    (∀ (c : BisonClientModel) (chain : String) (f : GetInfoResponse)
        (cache : InfoCache) (info : GetInfoResponse),
      cache.lookup c.baseUrl = some info →
      getChainInfo c chain f cache =
        (Except.ok (info.chains chain), cache, false)) ∧
    (∀ (a b : BisonClientModel) (chain1 chain2 : String)
        (f1 f2 : GetInfoResponse) (cache : InfoCache),
      a.baseUrl = b.baseUrl →
      cache.lookup a.baseUrl = none →
      (getChainInfo a chain1 f1 cache).2.2 = true ∧
      (getChainInfo a chain1 f1 cache).1 = Except.ok (f1.chains chain1) ∧
      getChainInfo b chain2 f2 (getChainInfo a chain1 f1 cache).2.1 =
        (Except.ok (f1.chains chain2),
         (getChainInfo a chain1 f1 cache).2.1, false)) := by
  constructor
  · intro c chain f cache info h
    simp [getChainInfo, h]
  · intro a b chain1 chain2 f1 f2 cache heq hnone
    have hfirst : getChainInfo a chain1 f1 cache =
        (Except.ok (f1.chains chain1), (a.baseUrl, f1) :: cache, true) := by
      simp [getChainInfo, hnone, lookup_cons_self]
    have hlook : ((a.baseUrl, f1) :: cache).lookup b.baseUrl = some f1 := by
      rw [← heq, lookup_cons_self]
    refine ⟨by simp [hfirst], by simp [hfirst], ?_⟩
    rw [hfirst]
    simp [getChainInfo, hlook]

/-- Closed instance of cache sharing: a second client value with the same
baseUrl is served the response cached by the first and fetches nothing. -/
theorem c10_info_cache_shared_witness :
    getChainInfo ⟨"http u"⟩ "base" infoB
        ((getChainInfo ⟨"http u"⟩ "base" infoA []).2.1) =
      (Except.ok (infoA.chains "base"),
       (getChainInfo ⟨"http u"⟩ "base" infoA []).2.1, false) :=
  (c10_info_cache_shared_by_baseUrl.2 ⟨"http u"⟩ ⟨"http u"⟩ "base" "base"
    infoA infoB [] rfl rfl).2.2

end BisonSDK
